import Mathlib

/-!
Shallow embedding of `src/lib/fastifySession.js` (fastify-session plugin).

The per-request inbound logic (`handleSession`, installed as the preHandler
hook) and the outbound logic (`saveSession`, installed as the onSend hook)
are pure functions here.  Asynchronous store callbacks are modelled by
passing the store's responses as functions in a context record, and the
sequence of store operations the handler issues is returned explicitly as a
trace, so that ordering claims (set before cookie, destroy before re-mint)
are visible in the result.

JavaScript dynamic values are modelled with `Option`: `none` is
`undefined`/absent, and JS truthiness checks on strings and numbers are
translated explicitly (`"" `and `0` are falsy).
-/

/-- Cookie options object (`options.cookie`).  `none` models an absent
(`undefined`) property. -/
structure CookieOpts where
  path : Option String
  secure : Option Bool
  maxAge : Option Int
deriving DecidableEq

/-- A JS `Error` value as used by the plugin: a message plus the optional
`code` property inspected at `err.code === 'ENOENT'`. -/
structure JsError where
  message : String
  code : Option String
deriving DecidableEq

/-- The record held by the store under an unsigned session id.  This is the
serializable session shape described by the spec (section 6, stored record
layout): identity, signed identity, cookie attributes, optional expiry and
arbitrary extra data keys. -/
structure StoredRecord where
  sessionId : String
  encryptedSessionId : String
  cookie : CookieOpts
  expires : Option Int
  data : List (String × String)
deriving DecidableEq

/-- Modelled from the spec: the SessionEntity of `src/lib/session.js`, which
is not under `src/`.  Per the spec data model it carries `id`, `signedId`,
cookie attributes, expiry and arbitrary user data, and a brand-new entity
has exactly the four base enumerable keys (`sessionId`,
`encryptedSessionId`, `cookie`, `expires`) and no extra data keys; `data`
lists the extra enumerable keys beyond those four. -/
structure Session where
  sessionId : String
  encryptedSessionId : String
  cookie : CookieOpts
  expires : Option Int
  data : List (String × String)
deriving DecidableEq

/-- Number of enumerable keys of the session object as seen by
`Object.keys(session).length`: the four base fields plus any extra data
keys. -/
def Session.keyCount (s : Session) : Nat := 4 + s.data.length

/-- Modelled from the spec: constructing a fresh SessionEntity (the
`new Session(id, signedId, cookieOpts, secret)` call; `src/lib/session.js`
is not under `src/`).  A fresh entity copies the configured cookie
attributes, derives `expires` from `maxAge` when present, and has no extra
data keys. -/
def Session.create (sessionId encryptedSessionId : String)
    (cookieOpts : CookieOpts) (now : Int) : Session :=
  { sessionId := sessionId
    encryptedSessionId := encryptedSessionId
    cookie := cookieOpts
    expires := cookieOpts.maxAge.map (fun m => now + m)
    data := [] }

/-- Modelled from the spec: hydrating a SessionEntity from a stored record
(the `new Session(rec.sessionId, rec.encryptedSessionId, cookieOpts,
secret, rec)` call with a previous-session argument; `src/lib/session.js`
is not under `src/`).  Per the spec (4.3, Verified-Found-Live) the entity is
constructed directly from the stored record's identity, signature and
cookie fields plus its data. -/
def Session.hydrate (sessionId encryptedSessionId : String)
    (rec : StoredRecord) : Session :=
  { sessionId := sessionId
    encryptedSessionId := encryptedSessionId
    cookie := rec.cookie
    expires := rec.expires
    data := rec.data }

/-- Modelled from the spec: the pair returned by `generateSessionIds`
(`src/lib/utils.js` is not under `src/`): a freshly generated high-entropy
identifier and its signed form.  The generated pair is passed into the
handler as an explicit parameter of the context. -/
structure SessionIds where
  sessionId : String
  encryptedSessionId : String
deriving DecidableEq

/-- Outcome of one `store.get(id, cb)` call: the callback receives either a
truthy `err`, or a possibly-absent record (`found none` models
`cb(null, undefined)`). -/
inductive GetOutcome where
  | error (e : JsError)
  | found (r : Option StoredRecord)
deriving DecidableEq

/-- The transport connection object (`request.req.connection`), possibly
absent, with its `encrypted` property. -/
structure Conn where
  encrypted : Option Bool
deriving DecidableEq

/-- Request data the plugin reads: the url, the cookie value under the
configured cookie name (`request.cookies[options.cookieName]`), the
connection object and the `x-forwarded-proto` header. -/
structure Request where
  url : String
  cookieValue : Option String
  connection : Option Conn
  forwardedProto : Option String
deriving DecidableEq

/-- Per-request context for the inbound handler: the unsign function
already keyed with the secret (`cookieSignature.unsign(v, secret)`, `none`
models the `false` return), the id pair `generateSessionIds(secret)` would
produce on this request, the store's responses to `get` and `destroy`, and
`Date.now()`. -/
structure Ctx where
  unsign : String → Option String
  gen : SessionIds
  storeGet : String → GetOutcome
  storeDestroy : String → Option JsError
  now : Int

/-- A store operation issued by the inbound handler, in order. -/
inductive StoreOp where
  | get (id : String)
  | destroy (id : String)
deriving DecidableEq

/-- Terminal outcome of the inbound handler: `skip` is `done()` without
assigning a session (out-of-scope path), `assigned s` is
`request.session = s; done()`, and `error e` is `done(err)`. -/
inductive HandleResult where
  | skip
  | assigned (s : Session)
  | error (e : JsError)
deriving DecidableEq

/-- The cookie path used for the scope check: `cookieOpts.path || '/'`
(JS `||`, so an empty string also falls back to the default). -/
def cookiePathOr (c : CookieOpts) : String :=
  match c.path with
  | none => "/"
  | some p => if p = "" then "/" else p

/-- The scope check `url.indexOf(cookieOpts.path || '/') !== 0` of
`handleSession`: `indexOf(p) === 0` exactly when `p` is a prefix of the
url (compared character by character). -/
def inScope (c : CookieOpts) (url : String) : Bool :=
  (cookiePathOr c).data.isPrefixOf url.data

/-- `newSession` of the source: build a fresh entity from the generated id
pair and assign it to the request, then `done()`. -/
def newSession (gen : SessionIds) (cookieOpts : CookieOpts) (now : Int) : Session :=
  Session.create gen.sessionId gen.encryptedSessionId cookieOpts now

/-- The expiry test `session.expires && session.expires <= Date.now()`:
`expires` must be truthy (present and nonzero) and not in the future. -/
def expiredCheck (expires : Option Int) (now : Int) : Bool :=
  match expires with
  | none => false
  | some v => decide (v ≠ 0) && decide (v ≤ now)

/-- The inbound preHandler `handleSession` of the source, returning the
ordered trace of store operations together with the terminal outcome. -/
def handleSession (cookieOpts : CookieOpts) (ctx : Ctx) (r : Request) :
    List StoreOp × HandleResult :=
  if inScope cookieOpts r.url then
    match r.cookieValue with
    | none => ([], .assigned (newSession ctx.gen cookieOpts ctx.now))
    | some cv =>
      if cv = "" then ([], .assigned (newSession ctx.gen cookieOpts ctx.now))
      else
        match ctx.unsign cv with
        | none => ([], .assigned (newSession ctx.gen cookieOpts ctx.now))
        | some did =>
          match ctx.storeGet did with
          | .error e =>
            if e.code = some "ENOENT" then
              ([.get did], .assigned (newSession ctx.gen cookieOpts ctx.now))
            else ([.get did], .error e)
          | .found none =>
            ([.get did], .assigned (newSession ctx.gen cookieOpts ctx.now))
          | .found (some rec) =>
            if expiredCheck rec.expires ctx.now then
              match ctx.storeDestroy cv with
              | some e => ([.get did, .destroy cv], .error e)
              | none =>
                ([.get did, .destroy cv],
                 .assigned (newSession ctx.gen cookieOpts ctx.now))
            else
              ([.get did],
               .assigned (Session.hydrate rec.sessionId rec.encryptedSessionId rec))
  else ([], .skip)

/-- `isSessionModified` of the source:
`Object.keys(session).length !== 4`. -/
def isSessionModified (s : Session) : Bool :=
  decide (Session.keyCount s ≠ 4)

/-- The connection-encrypted test of `shouldSaveSession`:
`connection && connection.encrypted === true`. -/
def connEncrypted (r : Request) : Bool :=
  match r.connection with
  | none => false
  | some c => decide (c.encrypted = some true)

/-- `shouldSaveSession` of the source: suppress when the
save-only-if-initialized policy is active and the session is unmodified;
then save unconditionally unless the cookie is strictly marked secure, in
which case require encrypted transport or a forwarded-https header. -/
def shouldSaveSession (r : Request) (cookieOpts : CookieOpts)
    (saveUninitialized : Bool) (s : Session) : Bool :=
  if saveUninitialized = false ∧ isSessionModified s = false then false
  else if cookieOpts.secure ≠ some true then true
  else if connEncrypted r then true
  else decide (r.forwardedProto = some "https")

/-- An outbound effect issued by the onSend hook, in order: a store write
or the `reply.setCookie(name, value, cookieAttrs)` instruction. -/
inductive OutOp where
  | storeSet (id : String)
  | setCookie (name : String) (value : String) (c : CookieOpts)
deriving DecidableEq

/-- The onSend hook `saveSession` of the source.  The session argument is
`request.session` at response time; `none` models a request to which the
preHandler assigned no entity (the decorated placeholder object, which has
no `sessionId`).  Returns the ordered trace of outbound effects and the
error passed to `done`, if any. -/
def saveSession (cookieName : String) (cookieOpts : CookieOpts)
    (saveUninitialized : Bool) (storeSet : String → Session → Option JsError)
    (r : Request) (session : Option Session) : List OutOp × Option JsError :=
  match session with
  | none => ([], none)
  | some s =>
    if s.sessionId = "" then ([], none)
    else if shouldSaveSession r cookieOpts saveUninitialized s then
      match storeSet s.sessionId s with
      | some e => ([.storeSet s.sessionId], some e)
      | none =>
        ([.storeSet s.sessionId,
          .setCookie cookieName s.encryptedSessionId s.cookie], none)
    else ([], none)

/-- Plugin options as passed by the user, before defaulting. -/
structure Options where
  secret : Option String
  cookieName : Option String
  cookie : Option CookieOpts
  saveUninitialized : Option Bool
deriving DecidableEq

/-- Options after `ensureDefaults`. -/
structure Config where
  cookieName : String
  cookie : CookieOpts
  saveUninitialized : Bool
deriving DecidableEq

/-- `checkOptions` of the source: a missing (or falsy, hence empty) secret
is required, and a present secret must have length at least 32. -/
def checkOptions (secret : Option String) : Option JsError :=
  match secret with
  | none => some { message := "the secret option is required!", code := none }
  | some s =>
    if s = "" then some { message := "the secret option is required!", code := none }
    else if s.length < 32 then
      some { message := "the secret must have length 32 or greater", code := none }
    else none

/-- `option(options, key, def)` of the source: the configured value unless
it is `undefined`. -/
def jsOption {α : Type} (v : Option α) (d : α) : α := v.getD d

/-- `options.cookieName || 'sessionId'`: JS `||`, so an empty string also
falls back. -/
def jsOrStr (v : Option String) (d : String) : String :=
  match v with
  | none => d
  | some s => if s = "" then d else s

/-- `ensureDefaults` of the source: default cookie name, empty cookie
options object, `cookie.secure` defaulting to `true`, `saveUninitialized`
defaulting to `true`. -/
def ensureDefaults (o : Options) : Config :=
  let cookie := o.cookie.getD { path := none, secure := none, maxAge := none }
  { cookieName := jsOrStr o.cookieName "sessionId"
    cookie := { cookie with secure := some (jsOption cookie.secure true) }
    saveUninitialized := jsOption o.saveUninitialized true }

/-- The plugin setup function `session` of the source: validate the options
once, failing setup on a bad secret, otherwise install the defaulted
configuration. -/
def sessionSetup (o : Options) : Except JsError Config :=
  match checkOptions o.secret with
  | some e => .error e
  | none => .ok (ensureDefaults o)

/-! Concrete example inputs used to evaluate the embedded handlers. -/

/-- Default-shaped cookie options: every property absent. -/
def exCookieOpts : CookieOpts := { path := none, secure := none, maxAge := none }

/-- A stored record under id `abc` whose `expires` (5) is in the past
relative to `exCtx.now` (10). -/
def exRecord : StoredRecord :=
  { sessionId := "abc", encryptedSessionId := "abc.sig",
    cookie := exCookieOpts, expires := some 5, data := [] }

/-- A stored record under id `abc` whose `expires` (99) is still in the
future relative to now = 10, carrying one data key. -/
def exRecordLive : StoredRecord :=
  { sessionId := "abc", encryptedSessionId := "abc.sig",
    cookie := exCookieOpts, expires := some 99, data := [("user", "u1")] }

/-- A backend failure with a non-ENOENT code. -/
def exErr : JsError := { message := "boom", code := some "EIO" }

/-- Context where only the cookie value `abc.sig` unsigns (to `abc`), the
store holds the expired `exRecord` under `abc`, destroy succeeds, and the
generator yields the fresh pair `zzz`/`zzz.sig`. -/
def exCtx : Ctx :=
  { unsign := fun cv => if cv = "abc.sig" then some "abc" else none
    gen := { sessionId := "zzz", encryptedSessionId := "zzz.sig" }
    storeGet := fun i => if i = "abc" then .found (some exRecord) else .found none
    storeDestroy := fun _ => none
    now := 10 }

/-- Same as `exCtx` but the store holds the live `exRecordLive`. -/
def exCtxLive : Ctx :=
  { unsign := fun cv => if cv = "abc.sig" then some "abc" else none
    gen := { sessionId := "zzz", encryptedSessionId := "zzz.sig" }
    storeGet := fun i => if i = "abc" then .found (some exRecordLive) else .found none
    storeDestroy := fun _ => none
    now := 10 }

/-- Same as `exCtx` but every store get fails with the non-ENOENT
`exErr`. -/
def exCtxErr : Ctx :=
  { unsign := fun cv => if cv = "abc.sig" then some "abc" else none
    gen := { sessionId := "zzz", encryptedSessionId := "zzz.sig" }
    storeGet := fun _ => .error exErr
    storeDestroy := fun _ => none
    now := 10 }

/-- An in-scope request presenting the validly signed cookie `abc.sig`. -/
def exReqSigned : Request :=
  { url := "/", cookieValue := some "abc.sig", connection := none,
    forwardedProto := none }

/-- An in-scope request with no cookie. -/
def exReqNoCookie : Request :=
  { url := "/", cookieValue := none, connection := none, forwardedProto := none }

/-- An in-scope request with a cookie that fails signature
verification. -/
def exReqBadSig : Request :=
  { url := "/", cookieValue := some "bad", connection := none,
    forwardedProto := none }

/-- A request whose url does not start with the cookie path `/`. -/
def exReqOutOfScope : Request :=
  { url := "elsewhere", cookieValue := some "abc.sig", connection := none,
    forwardedProto := none }

/-- An in-scope request arriving over plaintext but with an
`x-forwarded-proto: https` header. -/
def exReqHttps : Request :=
  { url := "/", cookieValue := none, connection := none,
    forwardedProto := some "https" }

/-- A session with one application data key added. -/
def exSession : Session :=
  { sessionId := "abc", encryptedSessionId := "abc.sig", cookie := exCookieOpts,
    expires := none, data := [("user", "u1")] }

/-- A freshly minted, untouched session: exactly the four base keys. -/
def exFreshSession : Session :=
  { sessionId := "zzz", encryptedSessionId := "zzz.sig", cookie := exCookieOpts,
    expires := none, data := [] }

/-- A store whose set always succeeds. -/
def exSetOk : String → Session → Option JsError := fun _ _ => none

/-- Plugin options leaving `saveUninitialized` (and everything but the
secret) unset. -/
def exOptions : Options :=
  { secret := some "abcdefghabcdefghabcdefghabcdefgh", cookieName := none,
    cookie := none, saveUninitialized := none }

/-! Claims. -/

/-- C1: on a validly signed cookie whose stored record is expired, the
handler does issue a destroy and then mints a fresh session with a new id,
but the destroy is issued with the raw signed cookie value (`abc.sig`),
not with the session's unsigned id (`abc`) under which the store keyed the
record: evaluated at a concrete expired record, the trace's destroy
operation carries the signed cookie value, which differs from the
session's id. -/
theorem expired_destroy_uses_signed_cookie_value :
    handleSession exCookieOpts exCtx exReqSigned
      = ([.get "abc", .destroy "abc.sig"],
         .assigned (newSession exCtx.gen exCookieOpts exCtx.now)) ∧
    StoreOp.destroy "abc.sig" ≠ StoreOp.destroy exRecord.sessionId ∧
    (newSession exCtx.gen exCookieOpts exCtx.now).sessionId ≠ exRecord.sessionId := by
  refine ⟨by decide, by decide, by decide⟩

/-- C2: an in-scope request with no cookie value and an in-scope request
whose cookie fails signature verification both get a freshly minted
session built from the newly generated id pair, with an empty store trace
(no `Store.get`) and no error, and the two outcomes are identical. -/
theorem fresh_on_noCookie_or_badSignature
    (cookieOpts : CookieOpts) (ctx : Ctx) (r r' : Request) (cv : String)
    (hs : inScope cookieOpts r.url = true)
    (hs' : inScope cookieOpts r'.url = true)
    (hnone : r.cookieValue = none)
    (hcv : r'.cookieValue = some cv) (hne : cv ≠ "")
    (hun : ctx.unsign cv = none) :
    handleSession cookieOpts ctx r
      = ([], .assigned (newSession ctx.gen cookieOpts ctx.now)) ∧
    handleSession cookieOpts ctx r' = handleSession cookieOpts ctx r := by
  constructor
  · simp [handleSession, hs, hnone]
  · simp [handleSession, hs, hs', hnone, hcv, hne, hun]

/-- C2 witness: evaluated at a concrete no-cookie request and a concrete
forged-cookie request. -/
theorem fresh_on_noCookie_or_badSignature_holds :
    handleSession exCookieOpts exCtx exReqNoCookie
      = ([], .assigned (newSession exCtx.gen exCookieOpts exCtx.now)) ∧
    handleSession exCookieOpts exCtx exReqBadSig
      = handleSession exCookieOpts exCtx exReqNoCookie :=
  fresh_on_noCookie_or_badSignature exCookieOpts exCtx exReqNoCookie exReqBadSig
    "bad" (by decide) (by decide) rfl rfl (by decide) rfl

/-- C3: when the inbound `Store.get` errors, an error carrying the `ENOENT`
code degrades to a freshly minted session exactly like an absent record,
any other error is propagated as the handler's terminal error, and a
successful get returning no record also mints fresh. -/
theorem getError_dispatch
    (cookieOpts : CookieOpts) (ctx : Ctx) (r : Request) (cv did : String)
    (hs : inScope cookieOpts r.url = true)
    (hcv : r.cookieValue = some cv) (hne : cv ≠ "")
    (hun : ctx.unsign cv = some did) :
    (∀ e : JsError, ctx.storeGet did = .error e →
      (e.code = some "ENOENT" →
        handleSession cookieOpts ctx r
          = ([.get did], .assigned (newSession ctx.gen cookieOpts ctx.now))) ∧
      (e.code ≠ some "ENOENT" →
        handleSession cookieOpts ctx r = ([.get did], .error e))) ∧
    (ctx.storeGet did = .found none →
      handleSession cookieOpts ctx r
        = ([.get did], .assigned (newSession ctx.gen cookieOpts ctx.now))) := by
  refine ⟨fun e hget => ⟨fun hc => ?_, fun hc => ?_⟩, fun hget => ?_⟩
  · simp [handleSession, hs, hcv, hne, hun, hget, hc]
  · simp [handleSession, hs, hcv, hne, hun, hget, hc]
  · simp [handleSession, hs, hcv, hne, hun, hget]

/-- C3 witness: a concrete non-ENOENT store failure is propagated. -/
theorem getError_dispatch_holds :
    handleSession exCookieOpts exCtxErr exReqSigned = ([.get "abc"], .error exErr) :=
  ((getError_dispatch exCookieOpts exCtxErr exReqSigned "abc.sig" "abc"
      (by decide) rfl (by decide) rfl).1 exErr rfl).2 (by decide)

/-- C4: when the persistence decision is to save, the store write runs
first; the set-cookie instruction (with the entity's signed id and its
cookie attributes) follows only a successful write, and a write error is
propagated with no cookie emitted. -/
theorem set_before_cookie
    (cookieName : String) (cookieOpts : CookieOpts) (saveUninitialized : Bool)
    (storeSet : String → Session → Option JsError) (r : Request) (s : Session)
    (hid : s.sessionId ≠ "")
    (hsave : shouldSaveSession r cookieOpts saveUninitialized s = true) :
    (∀ e : JsError, storeSet s.sessionId s = some e →
      saveSession cookieName cookieOpts saveUninitialized storeSet r (some s)
        = ([.storeSet s.sessionId], some e)) ∧
    (storeSet s.sessionId s = none →
      saveSession cookieName cookieOpts saveUninitialized storeSet r (some s)
        = ([.storeSet s.sessionId,
            .setCookie cookieName s.encryptedSessionId s.cookie], none)) := by
  refine ⟨fun e he => ?_, fun he => ?_⟩
  · simp [saveSession, hid, hsave, he]
  · simp [saveSession, hid, hsave, he]

/-- C4 witness: with a succeeding store, the write is followed by the
cookie instruction. -/
theorem set_before_cookie_holds :
    saveSession "sessionId" exCookieOpts true exSetOk exReqSigned (some exSession)
      = ([.storeSet "abc", .setCookie "sessionId" "abc.sig" exCookieOpts], none) :=
  (set_before_cookie "sessionId" exCookieOpts true exSetOk exReqSigned exSession
    (by decide) (by decide)).2 rfl

/-- C5: for an entity past the saveUninitialized check, a cookie not
strictly marked secure is always saved; a secure cookie is saved exactly
when the connection is encrypted or the forwarded-proto header is https;
and when the decision is not to save, nothing is written and no cookie is
emitted. -/
theorem secure_gating
    (cookieName : String) (cookieOpts : CookieOpts) (saveUninitialized : Bool)
    (storeSet : String → Session → Option JsError) (r : Request) (s : Session)
    (hpass : saveUninitialized = true ∨ isSessionModified s = true) :
    (cookieOpts.secure ≠ some true →
      shouldSaveSession r cookieOpts saveUninitialized s = true) ∧
    (cookieOpts.secure = some true →
      (shouldSaveSession r cookieOpts saveUninitialized s = true ↔
        (connEncrypted r = true ∨ r.forwardedProto = some "https"))) ∧
    (shouldSaveSession r cookieOpts saveUninitialized s = false →
      saveSession cookieName cookieOpts saveUninitialized storeSet r (some s)
        = ([], none)) := by
  have hnot : ¬ (saveUninitialized = false ∧ isSessionModified s = false) := by
    rcases hpass with h | h <;> simp [h]
  refine ⟨fun hsec => ?_, fun hsec => ?_, fun hss => ?_⟩
  · simp [shouldSaveSession, hnot, hsec]
  · by_cases hc : connEncrypted r = true
    · simp [shouldSaveSession, hnot, hsec, hc]
    · simp [shouldSaveSession, hnot, hsec, hc]
  · by_cases hid : s.sessionId = "" <;> simp [saveSession, hid, hss]

/-- C5 witness: a non-secure cookie passes the gate. -/
theorem secure_gating_holds :
    shouldSaveSession exReqSigned exCookieOpts true exSession = true :=
  (secure_gating "sessionId" exCookieOpts true exSetOk exReqSigned exSession
    (Or.inl rfl)).1 (by decide)

/-- C6: with `saveUninitialized` disabled, a session still in its
freshly-minted shape (exactly the four base enumerable keys) is neither
written to the store nor cookied. -/
theorem uninitialized_suppressed
    (cookieName : String) (cookieOpts : CookieOpts)
    (storeSet : String → Session → Option JsError) (r : Request) (s : Session)
    (hfresh : Session.keyCount s = 4) :
    saveSession cookieName cookieOpts false storeSet r (some s) = ([], none) := by
  have hmod : isSessionModified s = false := by
    simp [isSessionModified, hfresh]
  have hss : shouldSaveSession r cookieOpts false s = false := by
    simp [shouldSaveSession, hmod]
  by_cases hid : s.sessionId = "" <;> simp [saveSession, hid, hss]

/-- C6 witness: a concrete untouched session is suppressed. -/
theorem uninitialized_suppressed_holds :
    saveSession "sessionId" exCookieOpts false exSetOk exReqSigned
      (some exFreshSession) = ([], none) :=
  uninitialized_suppressed "sessionId" exCookieOpts exSetOk exReqSigned
    exFreshSession rfl

/-- C7: plugin setup fails exactly when the secret is missing (absent or
empty, hence falsy) or shorter than 32 characters; any secret of length at
least 32 passes the one-time validation and setup installs the defaulted
configuration. -/
theorem secret_validated_at_setup (o : Options) :
    ((∃ e, sessionSetup o = .error e) ↔
      (o.secret = none ∨ ∃ s, o.secret = some s ∧ s.length < 32)) ∧
    (∀ s, o.secret = some s → 32 ≤ s.length →
      sessionSetup o = .ok (ensureDefaults o)) := by
  constructor
  · cases hsec : o.secret with
    | none => simp [sessionSetup, checkOptions, hsec]
    | some s =>
      by_cases hz : s = ""
      · subst hz; simp [sessionSetup, checkOptions, hsec]
      · by_cases hl : s.length < 32
        · simp [sessionSetup, checkOptions, hsec, hz, hl]
        · simp [sessionSetup, checkOptions, hsec, hz, hl, Nat.not_lt.mp hl]
  · intro s hsec hl
    have hz : s ≠ "" := by
      intro h; subst h; simp at hl
    simp [sessionSetup, checkOptions, hsec, hz, Nat.not_lt.mpr hl]

/-- C8: a request whose url does not start with the configured cookie path
is skipped with no session assigned and no store operation, and the
outbound hook is a no-op both for a request without an assigned entity and
for an entity lacking an identity. -/
theorem outOfScope_noop
    (cookieOpts : CookieOpts) (ctx : Ctx) (r : Request)
    (cookieName : String) (saveUninitialized : Bool)
    (storeSet : String → Session → Option JsError)
    (hs : inScope cookieOpts r.url = false) :
    handleSession cookieOpts ctx r = ([], .skip) ∧
    saveSession cookieName cookieOpts saveUninitialized storeSet r none
      = ([], none) ∧
    (∀ s : Session, s.sessionId = "" →
      saveSession cookieName cookieOpts saveUninitialized storeSet r (some s)
        = ([], none)) := by
  refine ⟨?_, rfl, fun s hid => ?_⟩
  · simp [handleSession, hs]
  · simp [saveSession, hid]

/-- C8 witness: a concrete out-of-scope request is skipped inbound and
produces no outbound effect. -/
theorem outOfScope_noop_holds :
    handleSession exCookieOpts exCtx exReqOutOfScope = ([], .skip) ∧
    saveSession "sessionId" exCookieOpts true exSetOk exReqOutOfScope none
      = ([], none) :=
  ⟨(outOfScope_noop exCookieOpts exCtx exReqOutOfScope "sessionId" true exSetOk
      (by decide)).1,
   (outOfScope_noop exCookieOpts exCtx exReqOutOfScope "sessionId" true exSetOk
      (by decide)).2.1⟩

/-- C9: a validly signed cookie resolving to a live, non-expired stored
record attaches a session hydrated from that record after the single get,
and the hydrated entity's id, signed id, cookie attributes, expiry and
data all come from the stored record. -/
theorem live_hydration
    (cookieOpts : CookieOpts) (ctx : Ctx) (r : Request) (cv did : String)
    (rec : StoredRecord)
    (hs : inScope cookieOpts r.url = true)
    (hcv : r.cookieValue = some cv) (hne : cv ≠ "")
    (hun : ctx.unsign cv = some did)
    (hget : ctx.storeGet did = .found (some rec))
    (hlive : expiredCheck rec.expires ctx.now = false) :
    handleSession cookieOpts ctx r
      = ([.get did],
         .assigned (Session.hydrate rec.sessionId rec.encryptedSessionId rec)) ∧
    (Session.hydrate rec.sessionId rec.encryptedSessionId rec).sessionId
      = rec.sessionId ∧
    (Session.hydrate rec.sessionId rec.encryptedSessionId rec).encryptedSessionId
      = rec.encryptedSessionId ∧
    (Session.hydrate rec.sessionId rec.encryptedSessionId rec).cookie
      = rec.cookie ∧
    (Session.hydrate rec.sessionId rec.encryptedSessionId rec).expires
      = rec.expires ∧
    (Session.hydrate rec.sessionId rec.encryptedSessionId rec).data
      = rec.data := by
  refine ⟨?_, rfl, rfl, rfl, rfl, rfl⟩
  simp [handleSession, hs, hcv, hne, hun, hget, hlive]

/-- C9 witness: a concrete live record hydrates the request's session. -/
theorem live_hydration_holds :
    handleSession exCookieOpts exCtxLive exReqSigned
      = ([.get "abc"],
         .assigned (Session.hydrate exRecordLive.sessionId
           exRecordLive.encryptedSessionId exRecordLive)) :=
  (live_hydration exCookieOpts exCtxLive exReqSigned "abc.sig" "abc" exRecordLive
    (by decide) rfl (by decide) rfl rfl (by decide)).1

/-- C10: leaving `saveUninitialized` unset defaults it to true, in which
case the persistence decision is the same for every session (it never
consults modification), and any session with an id that passes the secure
gate is written and cookied even if untouched. -/
theorem default_saveUninitialized_always_saves
    (o : Options) (cfg : Config) (storeSet : String → Session → Option JsError)
    (r : Request) (s : Session)
    (hdef : o.saveUninitialized = none) (hcfg : cfg = ensureDefaults o) :
    cfg.saveUninitialized = true ∧
    (∀ s' : Session,
      shouldSaveSession r cfg.cookie cfg.saveUninitialized s'
        = shouldSaveSession r cfg.cookie cfg.saveUninitialized s) ∧
    (s.sessionId ≠ "" →
      shouldSaveSession r cfg.cookie cfg.saveUninitialized s = true →
      storeSet s.sessionId s = none →
      saveSession cfg.cookieName cfg.cookie cfg.saveUninitialized storeSet r
          (some s)
        = ([.storeSet s.sessionId,
            .setCookie cfg.cookieName s.encryptedSessionId s.cookie], none)) := by
  have htrue : cfg.saveUninitialized = true := by
    subst hcfg; simp [ensureDefaults, jsOption, hdef]
  refine ⟨htrue, fun s' => ?_, fun hid hsave hset => ?_⟩
  · rw [htrue]; simp [shouldSaveSession]
  · simp [saveSession, hid, hsave, hset]

/-- C10 witness: under the defaulted configuration, a concrete untouched
session on a forwarded-https request is written and cookied. -/
theorem default_saveUninitialized_always_saves_holds :
    saveSession (ensureDefaults exOptions).cookieName (ensureDefaults exOptions).cookie
        (ensureDefaults exOptions).saveUninitialized exSetOk exReqHttps
        (some exFreshSession)
      = ([.storeSet "zzz",
          .setCookie (ensureDefaults exOptions).cookieName "zzz.sig" exCookieOpts],
         none) :=
  (default_saveUninitialized_always_saves exOptions (ensureDefaults exOptions)
    exSetOk exReqHttps exFreshSession rfl rfl).2.2 (by decide) (by decide) rfl
